import Mathlib

/-!
Verification of the real-time duplex audio session engine of this repository
(the `InterviewSession` component, authoritative variant `src/unnamed/part_002`,
with near-duplicate variants in `src/components/InterviewSession.tsx`,
`src/unnamed/part_000` and `src/unnamed/part_001`).

Clock times, durations and signal energies are embedded as rationals (the
source uses IEEE doubles; none of the verified properties depend on rounding).
Mutable refs become fields of explicit state structures; each event handler
becomes a pure state-transition function.
-/

namespace InterviewEngine

/-! Output scheduler.

Embeds the `inlineData` scheduling branch of `onmessage`
(`src/unnamed/part_002` lines 466-485):

  const now = ctx.currentTime;
  const startTime = Math.max(now, nextAudioStartTimeRef.current);
  source.start(startTime);
  nextAudioStartTimeRef.current = startTime + buffer.duration;
  sourcesRef.current.add(source);

and the `isInterrupted` branch (lines 401-406):

  sourcesRef.current.forEach(source => source.stop());
  sourcesRef.current.clear();
  nextAudioStartTimeRef.current = 0;

`sourcesRef` (the set of active `AudioBufferSourceNode`s) is modelled as the
list of scheduled sources, each carrying its computed start time and its
buffer duration; `stop()` followed by `clear()` is modelled as the active
list becoming empty. -/

/-- One scheduled playback source: its computed start time and the duration
of the PCM buffer it plays (the embedding of an `AudioBufferSourceNode`
together with `buffer.duration`). -/
structure ScheduledSource where
  startTime : ℚ
  duration : ℚ
deriving DecidableEq, Repr

/-- The output scheduler state: the active source set `sourcesRef` and the
schedule pointer `nextAudioStartTimeRef`. -/
structure SchedulerState where
  sources : List ScheduledSource
  nextAudioStartTime : ℚ
deriving DecidableEq, Repr

/-- Embedding of one `inlineData` scheduling decision: the start time is
`max(currentClockTime, nextAvailableStartTime)`, the pointer is then advanced
by the buffer duration, and the source joins the active set.  Returns the new
state together with the scheduled source. -/
def enqueueBuffer (now dur : ℚ) (s : SchedulerState) : SchedulerState × ScheduledSource :=
  let startTime := max now s.nextAudioStartTime
  ({ sources := s.sources ++ [⟨startTime, dur⟩],
     nextAudioStartTime := startTime + dur },
   ⟨startTime, dur⟩)

/-- Embedding of the `isInterrupted` branch restricted to the scheduler: all
active sources are stopped and removed, and the schedule pointer is reset
to `0` (so the next start time is `max(now, 0) = now`). -/
def interruptPlayback (_s : SchedulerState) : SchedulerState :=
  { sources := [], nextAudioStartTime := 0 }

/-- Runs a sequence of scheduling decisions.  Each event is a pair
`(currentClockTime, bufferDuration)`; the result is the list of scheduled
sources in order of arrival. -/
def scheduleRun : List (ℚ × ℚ) → SchedulerState → List ScheduledSource
  | [], _ => []
  | (now, dur) :: rest, s =>
      let r := enqueueBuffer now dur s
      r.2 :: scheduleRun rest r.1

/-- The first source scheduled by a run never starts before the schedule
pointer it started from. -/
theorem scheduleRun_head_ge (events : List (ℚ × ℚ)) (s : SchedulerState) :
    ∀ x ∈ (scheduleRun events s).head?, s.nextAudioStartTime ≤ x.startTime := by
  cases events with
  | nil => intro x hx; simp [scheduleRun] at hx
  | cons e rest =>
      intro x hx
      obtain ⟨now, dur⟩ := e
      simp [scheduleRun, enqueueBuffer] at hx
      subst hx
      exact le_max_right _ _

/-! Termination guard.

Embeds `handleTermination` (`src/unnamed/part_002` lines 119-129, identical in
`src/components/InterviewSession.tsx` lines 80-87):

  const handleTermination = (reason) => {
    if (terminationTriggeredRef.current) return;
    terminationTriggeredRef.current = true;
    setTimeout(() => { disconnect(); onComplete(transcript, reason); }, 2000);
  };

The reason captured by the (single) scheduled timeout closure is modelled as
`recordedReason`; each eventual `onComplete` invocation increments
`onCompleteCalls`. -/

/-- Termination-guard state: the `terminationTriggeredRef` flag, the reason
captured by the scheduled completion closure, and how many times the
downstream completion handler `onComplete` is invoked. -/
structure TerminationState where
  terminationTriggered : Bool
  recordedReason : Option String
  onCompleteCalls : ℕ
deriving DecidableEq, Repr

/-- The state before any termination request. -/
def initTermination : TerminationState :=
  { terminationTriggered := false, recordedReason := none, onCompleteCalls := 0 }

/-- Embedding of `handleTermination`: a silent no-op when the guard is
already set; otherwise sets the guard, records the reason, and schedules the
one `onComplete` call. -/
def handleTermination (reason : String) (s : TerminationState) : TerminationState :=
  if s.terminationTriggered then s
  else { terminationTriggered := true,
         recordedReason := some reason,
         onCompleteCalls := s.onCompleteCalls + 1 }

/-- Once the guard is set, every further termination request leaves the state
unchanged. -/
theorem handleTermination_triggered (reason : String) (s : TerminationState)
    (h : s.terminationTriggered = true) : handleTermination reason s = s := by
  simp [handleTermination, h]

/-- C1: for every sequence of enqueued playback buffers, the computed start
times are monotonically non-decreasing and non-overlapping.  Each scheduled
start equals `max(currentClockTime, nextAvailableStartTime)`, the pointer is
then advanced by the buffer duration, and consecutive sources satisfy
`start(n+1) >= start(n) + duration(n)` (hence, durations being nonnegative,
`start(n+1) >= start(n)`). -/
theorem scheduler_starts_no_overlap (events : List (ℚ × ℚ)) (s : SchedulerState)
    (hdur : ∀ e ∈ events, 0 ≤ e.2) :
    (∀ now dur t, (enqueueBuffer now dur t).2.startTime = max now t.nextAudioStartTime ∧
      (enqueueBuffer now dur t).1.nextAudioStartTime = max now t.nextAudioStartTime + dur) ∧
    List.Chain' (fun a b => a.startTime + a.duration ≤ b.startTime) (scheduleRun events s) ∧
    List.Chain' (fun a b => a.startTime ≤ b.startTime) (scheduleRun events s) := by
  refine ⟨fun now dur t => ⟨rfl, rfl⟩, ?_, ?_⟩
  · induction events generalizing s with
    | nil => simp [scheduleRun]
    | cons e rest ih =>
        obtain ⟨now, dur⟩ := e
        rw [scheduleRun]
        refine List.chain'_cons'.mpr ⟨?_, ih _ (fun e he => hdur e (List.mem_cons_of_mem _ he))⟩
        intro y hy
        have := scheduleRun_head_ge rest (enqueueBuffer now dur s).1 y hy
        simpa [enqueueBuffer] using this
  · induction events generalizing s with
    | nil => simp [scheduleRun]
    | cons e rest ih =>
        obtain ⟨now, dur⟩ := e
        rw [scheduleRun]
        refine List.chain'_cons'.mpr ⟨?_, ih _ (fun e he => hdur e (List.mem_cons_of_mem _ he))⟩
        intro y hy
        have h1 := scheduleRun_head_ge rest (enqueueBuffer now dur s).1 y hy
        have h0 : 0 ≤ dur := hdur (now, dur) (List.mem_cons_self _ _)
        simp only [enqueueBuffer] at h1 ⊢
        calc (max now s.nextAudioStartTime : ℚ)
            ≤ max now s.nextAudioStartTime + dur := by linarith
          _ ≤ y.startTime := h1

/-- Witness for C1: a concrete three-buffer run (durations 2, 3, 1). -/
theorem scheduler_starts_no_overlap_witness :
    (∀ e ∈ [((0 : ℚ), (2 : ℚ)), (0, 3), (7, 1)], 0 ≤ e.2) ∧
    List.Chain' (fun a b => a.startTime + a.duration ≤ b.startTime)
      (scheduleRun [((0 : ℚ), (2 : ℚ)), (0, 3), (7, 1)] ⟨[], 0⟩) :=
  ⟨by decide, (scheduler_starts_no_overlap [((0 : ℚ), (2 : ℚ)), (0, 3), (7, 1)] ⟨[], 0⟩
      (by decide)).2.1⟩

/-- C2: on the server `interrupted` signal every scheduled or playing source
is stopped, the active set becomes empty, and the schedule pointer resets to
`0`, so the next enqueued buffer starts at the current clock time (for any
clock value `now >= 0`, as `AudioContext.currentTime` always is) rather than
at the previously computed future offset. -/
theorem interrupt_resets_schedule (s : SchedulerState) (now dur : ℚ) (hnow : 0 ≤ now) :
    (interruptPlayback s).sources = [] ∧
    (interruptPlayback s).nextAudioStartTime = 0 ∧
    (enqueueBuffer now dur (interruptPlayback s)).2.startTime = now := by
  refine ⟨rfl, rfl, ?_⟩
  simp [enqueueBuffer, interruptPlayback, max_eq_left hnow]

/-- Witness for C2, mirroring the spec scenario: two queued buffers of
durations 2 and 3 with the pointer at the 5-second mark; after the interrupt
a 1-second buffer enqueued at clock time 7 starts at 7, not at 5. -/
theorem interrupt_resets_schedule_witness :
    (0 : ℚ) ≤ 7 ∧
    (enqueueBuffer 7 1 (interruptPlayback ⟨[⟨0, 2⟩, ⟨2, 3⟩], 5⟩)).2.startTime = 7 :=
  ⟨by decide, (interrupt_resets_schedule ⟨[⟨0, 2⟩, ⟨2, 3⟩], 5⟩ 7 1 (by decide)).2.2⟩

/-- C3: termination is idempotent.  `terminate("A")` followed by
`terminate("B")` and then any further sequence of termination requests
records exactly the reason "A" and invokes the downstream completion handler
exactly once; every later request is a silent no-op. -/
theorem termination_idempotent (a b : String) (rest : List String) :
    (rest.foldl (fun st r => handleTermination r st)
        (handleTermination b (handleTermination a initTermination))).recordedReason
      = some a ∧
    (rest.foldl (fun st r => handleTermination r st)
        (handleTermination b (handleTermination a initTermination))).onCompleteCalls
      = 1 := by
  have hA : handleTermination a initTermination
      = { terminationTriggered := true, recordedReason := some a, onCompleteCalls := 1 } := by
    simp [handleTermination, initTermination]
  have hstuck : ∀ (l : List String) (s : TerminationState), s.terminationTriggered = true →
      l.foldl (fun st r => handleTermination r st) s = s := by
    intro l
    induction l with
    | nil => intro s _; rfl
    | cons r rest ih =>
        intro s hs
        rw [List.foldl_cons, handleTermination_triggered r s hs]
        exact ih s hs
  rw [hA, handleTermination_triggered b _ rfl, hstuck rest _ rfl]
  exact ⟨rfl, rfl⟩

/-! Countdown timer.

Embeds the timer `useEffect` (`src/unnamed/part_002` lines 136-150, identical
in `src/components/InterviewSession.tsx` lines 89-103):

  if (status === 'connected') {
    const timer = setInterval(() => {
      setTimeLeft((prev) => {
        if (prev <= 1) {
          clearInterval(timer);
          handleTermination("Time Limit Exceeded");
          return 0;
        }
        return prev - 1;
      });
    }, 1000);
    ...
  }

`timeLeft` starts at 600 (`useState(600)`); `timerActive` models the interval
existing (the session is connected and the interval has not been cleared). -/

/-- Countdown-timer state: remaining seconds, whether the 1-second interval
is still installed, and the termination-guard state it feeds into. -/
structure TimerState where
  timeLeft : ℕ
  timerActive : Bool
  term : TerminationState
deriving DecidableEq, Repr

/-- The timer state at connection time: 600 seconds, interval running, no
termination committed. -/
def initTimer : TimerState :=
  { timeLeft := 600, timerActive := true, term := initTermination }

/-- Embedding of one interval tick: with at most one second left the interval
is cleared, the clock pinned to `0` and termination requested with reason
"Time Limit Exceeded"; otherwise the clock decrements by exactly one. -/
def timerTick (s : TimerState) : TimerState :=
  if s.timerActive = false then s
  else if s.timeLeft ≤ 1 then
    { timeLeft := 0, timerActive := false,
      term := handleTermination "Time Limit Exceeded" s.term }
  else { s with timeLeft := s.timeLeft - 1 }

/-- While more than `k` seconds remain, `k` ticks decrement the clock by
exactly `k` and touch nothing else. -/
theorem timerTick_iterate (k : ℕ) : ∀ s : TimerState, s.timerActive = true →
    k < s.timeLeft →
    timerTick^[k] s = { timeLeft := s.timeLeft - k, timerActive := true, term := s.term } := by
  induction k with
  | zero =>
      intro s hs _
      cases s with
      | mk t a tm =>
          simp only [TimerState.timerActive] at hs
          subst hs
          simp
  | succ k ih =>
      intro s hs hk
      rw [Function.iterate_succ_apply]
      have h1 : ¬ s.timeLeft ≤ 1 := by omega
      have hstep : timerTick s
          = { timeLeft := s.timeLeft - 1, timerActive := true, term := s.term } := by
        simp [timerTick, hs, h1]
      rw [hstep, ih _ rfl (show k < s.timeLeft - 1 by omega)]
      have harith : s.timeLeft - 1 - k = s.timeLeft - (k + 1) := by omega
      simp [harith]

/-- C8: the countdown starts at 600 seconds, decrements by exactly one per
tick while connected, and on reaching zero commits termination with the
time-limit reason exactly once - a tool-call termination request arriving in
the same tick is a silent no-op, and the cleared interval never fires
again. -/
theorem countdown_fires_once :
    initTimer.timeLeft = 600 ∧
    (∀ k, k < 600 → (timerTick^[k] initTimer).timeLeft = 600 - k ∧
      (timerTick^[k] initTimer).term.onCompleteCalls = 0) ∧
    (timerTick^[600] initTimer).timeLeft = 0 ∧
    (timerTick^[600] initTimer).term.recordedReason = some "Time Limit Exceeded" ∧
    (timerTick^[600] initTimer).term.onCompleteCalls = 1 ∧
    handleTermination "Completed" (timerTick^[600] initTimer).term
      = (timerTick^[600] initTimer).term ∧
    timerTick (timerTick^[600] initTimer) = timerTick^[600] initTimer := by
  have h599 : timerTick^[599] initTimer
      = { timeLeft := 1, timerActive := true, term := initTermination } := by
    have h := timerTick_iterate 599 initTimer rfl (by norm_num [initTimer])
    rw [h]
    norm_num [initTimer]
  have h600 : timerTick^[600] initTimer
      = { timeLeft := 0, timerActive := false,
          term := handleTermination "Time Limit Exceeded" initTermination } := by
    have : (600 : ℕ) = 599 + 1 := by omega
    rw [this, Function.iterate_succ_apply', h599]
    simp [timerTick]
  refine ⟨rfl, ?_, ?_, ?_, ?_, ?_, ?_⟩
  · intro k hk
    rw [timerTick_iterate k initTimer rfl (by simpa [initTimer] using hk)]
    exact ⟨rfl, rfl⟩
  · rw [h600]
  · rw [h600]; simp [handleTermination, initTermination]
  · rw [h600]; simp [handleTermination, initTermination]
  · rw [h600]
    exact handleTermination_triggered _ _ (by simp [handleTermination, initTermination])
  · rw [h600]; simp [timerTick]

/-- Witness for C8: seven ticks in, the clock reads 593 and no completion has
been invoked. -/
theorem countdown_fires_once_witness :
    (7 : ℕ) < 600 ∧ (timerTick^[7] initTimer).timeLeft = 600 - 7 ∧
    (timerTick^[7] initTimer).term.onCompleteCalls = 0 :=
  ⟨by decide, countdown_fires_once.2.1 7 (by decide)⟩

/-! Voice activity detector.

Embeds the VAD portion of `onaudioprocess` (`src/unnamed/part_002` lines
341-349):

  const rms = Math.sqrt(sum / inputData.length);
  const alpha = 0.05;
  const currentNoise = noiseFloorRef.current;
  if (rms < currentNoise) noiseFloorRef.current = (currentNoise * 0.90) + (rms * 0.10);
  else if (rms < currentNoise * 3) noiseFloorRef.current = (currentNoise * (1 - alpha)) + (rms * alpha);
  const detectionThreshold = Math.max(0.03, noiseFloorRef.current * 6);
  if (rms > detectionThreshold) { ...speech... } else { ...silence... }

The root-mean-square value `rms` (an irrational square root in general) is
taken as the input of the embedded step; the floor update and the
classification are embedded exactly.  `noiseFloorRef` is initialised to
`0.002` (line 66). -/

/-- The smoothing constant `alpha = 0.05` of the moderate-energy branch. -/
def vadAlpha : ℚ := 1/20

/-- The initial value of `noiseFloorRef` (`0.002`). -/
def initialNoiseFloor : ℚ := 1/500

/-- The absolute minimum of the detection threshold (`0.03`). -/
def minimumThreshold : ℚ := 3/100

/-- The sensitivity factor multiplying the noise floor (`6`). -/
def sensitivityFactor : ℚ := 6

/-- Embedding of the asymmetric noise-floor smoothing: decay with a 90/10
blend below the floor, rise with a 95/5 blend below three times the floor,
and no change at or above three times the floor. -/
def noiseFloorUpdate (currentNoise rms : ℚ) : ℚ :=
  if rms < currentNoise then currentNoise * (9/10) + rms * (1/10)
  else if rms < currentNoise * 3 then currentNoise * (1 - vadAlpha) + rms * vadAlpha
  else currentNoise

/-- The speech-detection threshold computed from the (just updated) noise
floor: `max(0.03, noiseFloor * 6)`. -/
def detectionThreshold (noiseFloor : ℚ) : ℚ :=
  max minimumThreshold (noiseFloor * sensitivityFactor)

/-- One VAD step: update the noise floor from the chunk energy, then classify
the chunk as speech exactly when `rms` exceeds the detection threshold of the
updated floor.  Returns the new floor and the classification. -/
def vadStep (noiseFloor rms : ℚ) : ℚ × Bool :=
  let f := noiseFloorUpdate noiseFloor rms
  (f, decide (detectionThreshold f < rms))

/-- A noise-floor update keeps the floor strictly positive whenever the chunk
energy is nonnegative. -/
theorem noiseFloorUpdate_pos {f rms : ℚ} (hf : 0 < f) (hr : 0 ≤ rms) :
    0 < noiseFloorUpdate f rms := by
  unfold noiseFloorUpdate vadAlpha
  split
  · nlinarith
  · split
    · nlinarith
    · exact hf

/-- C5: a chunk is classified as speech exactly when its RMS energy exceeds
`max(minimumThreshold, noiseFloor * sensitivityFactor)` with minimum `0.03`
and factor `6` (the floor being the freshly updated one, as in the source);
in particular a chunk is never classified as speech unless its RMS exceeds
the absolute minimum `0.03`, however low the floor has collapsed. -/
theorem vad_speech_iff (noiseFloor rms : ℚ) :
    minimumThreshold = 3/100 ∧ sensitivityFactor = 6 ∧
    ((vadStep noiseFloor rms).2 = true ↔
      max minimumThreshold ((vadStep noiseFloor rms).1 * sensitivityFactor) < rms) ∧
    ((vadStep noiseFloor rms).2 = true → 3/100 < rms) := by
  refine ⟨rfl, rfl, ?_, ?_⟩
  · simp [vadStep, detectionThreshold]
  · intro h
    simp [vadStep, detectionThreshold] at h
    calc (3/100 : ℚ) = minimumThreshold := rfl
      _ ≤ max minimumThreshold ((vadStep noiseFloor rms).1 * sensitivityFactor) :=
          le_max_left _ _
      _ < rms := by simpa [vadStep, detectionThreshold] using h

/-- Witness for C5: a collapsed floor (`0`) and a chunk of RMS `1`: the chunk
is classified as speech and its RMS indeed exceeds `0.03`. -/
theorem vad_speech_iff_witness :
    (vadStep 0 1).2 = true ∧ (3/100 : ℚ) < 1 := by
  have h : (vadStep 0 1).2 = true := by
    norm_num [vadStep, noiseFloorUpdate, detectionThreshold, minimumThreshold,
      sensitivityFactor, vadAlpha]
  exact ⟨h, (vad_speech_iff 0 1).2.2.2 h⟩

/-- Repeated silent chunks decay the floor geometrically: after `n` chunks of
RMS `0`, a positive floor has been multiplied by `(9/10)^n`. -/
theorem noiseFloorUpdate_silent_decay (n : ℕ) : ∀ f : ℚ, 0 < f →
    List.foldl noiseFloorUpdate f (List.replicate n 0) = f * (9/10)^n := by
  induction n with
  | zero => intro f _; simp
  | succ n ih =>
      intro f hf
      rw [List.replicate_succ, List.foldl_cons]
      have hstep : noiseFloorUpdate f 0 = f * (9/10) := by
        simp only [noiseFloorUpdate]
        rw [if_pos hf]
        ring
      rw [hstep, ih _ (by positivity)]
      ring

/-- C6 counterexample: the noise floor is not clamped to any configured
minimum.  A single silent chunk (RMS `0`) drags the floor strictly below its
configured initial value `0.002`, and forty silent chunks drag it below
`0.0001` - there is no minimum floor in the code. -/
theorem noise_floor_below_min_counterexample :
    noiseFloorUpdate initialNoiseFloor 0 < initialNoiseFloor ∧
    List.foldl noiseFloorUpdate initialNoiseFloor (List.replicate 40 0) < 1/10000 := by
  constructor
  · norm_num [noiseFloorUpdate, initialNoiseFloor]
  · rw [noiseFloorUpdate_silent_decay 40 initialNoiseFloor (by norm_num [initialNoiseFloor])]
    norm_num [initialNoiseFloor]

/-- C6 amended: the noise floor stays strictly positive for every sequence of
chunks with nonnegative RMS (it decays toward zero without ever reaching it,
and is never clamped); the configured minimum `0.03` lives in the detection
threshold `max(0.03, floor * 6)`, which never drops below `0.03`, not in the
floor itself. -/
theorem noise_floor_positive (f0 : ℚ) (xs : List ℚ)
    (h0 : 0 < f0) (hxs : ∀ x ∈ xs, 0 ≤ x) :
    0 < List.foldl noiseFloorUpdate f0 xs ∧
    ∀ f : ℚ, 3/100 ≤ detectionThreshold f := by
  constructor
  · induction xs generalizing f0 with
    | nil => exact h0
    | cons x rest ih =>
        rw [List.foldl_cons]
        exact ih _ (noiseFloorUpdate_pos h0 (hxs x (List.mem_cons_self _ _)))
          (fun y hy => hxs y (List.mem_cons_of_mem _ hy))
  · intro f
    exact le_max_left _ _

/-- Witness for the amended C6: a concrete positive start and a concrete
nonnegative chunk sequence. -/
theorem noise_floor_positive_witness :
    ((0 : ℚ) < 1/500 ∧ ∀ x ∈ [(0 : ℚ), 1/100, 2/5], 0 ≤ x) ∧
    0 < List.foldl noiseFloorUpdate (1/500) [(0 : ℚ), 1/100, 2/5] :=
  ⟨⟨by norm_num, by intro x hx; fin_cases hx <;> norm_num⟩,
   (noise_floor_positive (1/500) [(0 : ℚ), 1/100, 2/5] (by norm_num)
      (by intro x hx; fin_cases hx <;> norm_num)).1⟩

/-- C10: a chunk whose RMS is at least three times the current (nonnegative)
noise floor leaves the floor exactly unchanged - sustained loud speech never
inflates the floor - and conversely any chunk that changes the floor has RMS
strictly below three times the floor. -/
theorem loud_chunk_floor_unchanged (noiseFloor rms : ℚ) (h : 0 ≤ noiseFloor) :
    (noiseFloor * 3 ≤ rms → noiseFloorUpdate noiseFloor rms = noiseFloor) ∧
    (noiseFloorUpdate noiseFloor rms ≠ noiseFloor → rms < noiseFloor * 3) := by
  constructor
  · intro h3
    have h1 : ¬ rms < noiseFloor := by nlinarith
    have h2 : ¬ rms < noiseFloor * 3 := by nlinarith
    simp [noiseFloorUpdate, h1, h2]
  · intro hne
    by_contra hge
    have h2 : ¬ rms < noiseFloor * 3 := hge
    have h1 : ¬ rms < noiseFloor := by nlinarith [not_lt.mp hge]
    exact hne (by simp [noiseFloorUpdate, h1, h2])

/-- Witness for C10: floor `0.01`, loud chunk with RMS `0.5 >= 0.03`: the
floor is untouched. -/
theorem loud_chunk_floor_unchanged_witness :
    (0 : ℚ) ≤ 1/100 ∧ ((1/100 : ℚ) * 3 ≤ 1/2 → noiseFloorUpdate (1/100) (1/2) = 1/100) :=
  ⟨by norm_num, (loud_chunk_floor_unchanged (1/100) (1/2) (by norm_num)).1⟩

/-! Transcript accumulation.

Embeds the transcript branches of `onmessage` (`src/unnamed/part_002` lines
427-464).  For an AI text fragment:

  const displayText = text.trim();
  if (displayText) {
    setTranscriptLines(prev => {
      const last = prev[prev.length - 1];
      if (last?.speaker === 'ai')
        return [...prev.slice(0, -1), { ...last, text: last.text + ' ' + displayText }];
      return [...prev, { speaker: 'ai', text: displayText }];
    });
    if (history.length > 0 && history[history.length - 1].startsWith('AI:'))
      history[history.length - 1] += ' ' + displayText;
    else history.push(`AI: ` + displayText);
  }

and symmetrically for a user transcription fragment (no trim, no space
separator, prefix `User:`).  JavaScript `trim` and `startsWith` are embedded
as character-list operations (`trimString`, `startsWithStr`); `trimString`
strips space characters, which covers every string these code paths see. -/

/-- Strips leading and trailing space characters from a character list. -/
def trimChars (l : List Char) : List Char :=
  ((l.dropWhile fun c => c == ' ').reverse.dropWhile fun c => c == ' ').reverse

/-- Embedding of the JavaScript `trim` used on AI text fragments. -/
def trimString (s : String) : String := ⟨trimChars s.data⟩

/-- Embedding of the JavaScript `startsWith` used on transcript history
lines. -/
def startsWithStr (pre s : String) : Bool := s.data.take pre.data.length == pre.data

/-- The speaker tag of a displayed transcript line. -/
inductive Speaker where
  | user
  | ai
deriving DecidableEq, Repr

/-- One displayed transcript line (an element of `transcriptLines`). -/
structure TranscriptLine where
  speaker : Speaker
  text : String
deriving DecidableEq, Repr

/-- Embedding of the AI-fragment update of `transcriptLines`: a trimmed-empty
fragment is dropped; otherwise it is coalesced into the last line when that
line is an AI line (with a space separator) and appended as a new AI line
otherwise. -/
def addAiTranscriptLine (text : String) (lines : List TranscriptLine) : List TranscriptLine :=
  let displayText := trimString text
  if displayText = "" then lines
  else
    match lines.getLast? with
    | some last =>
        if last.speaker = Speaker.ai then
          lines.dropLast ++ [⟨Speaker.ai, last.text ++ " " ++ displayText⟩]
        else lines ++ [⟨Speaker.ai, displayText⟩]
    | none => lines ++ [⟨Speaker.ai, displayText⟩]

/-- Embedding of the AI-fragment update of `fullTranscriptHistory`: coalesced
into the last history line when it starts with `AI:`, appended as a fresh
`AI: `-prefixed line otherwise. -/
def addAiHistory (text : String) (hist : List String) : List String :=
  let displayText := trimString text
  if displayText = "" then hist
  else
    match hist.getLast? with
    | some last =>
        if startsWithStr "AI:" last then hist.dropLast ++ [last ++ " " ++ displayText]
        else hist ++ ["AI: " ++ displayText]
    | none => hist ++ ["AI: " ++ displayText]

/-- Embedding of the user-fragment update of `transcriptLines` (no trim, no
space separator). -/
def addUserTranscriptLine (text : String) (lines : List TranscriptLine) : List TranscriptLine :=
  if text = "" then lines
  else
    match lines.getLast? with
    | some last =>
        if last.speaker = Speaker.user then
          lines.dropLast ++ [⟨Speaker.user, last.text ++ text⟩]
        else lines ++ [⟨Speaker.user, text⟩]
    | none => lines ++ [⟨Speaker.user, text⟩]

/-- Embedding of the user-fragment update of `fullTranscriptHistory`. -/
def addUserHistory (text : String) (hist : List String) : List String :=
  if text = "" then hist
  else
    match hist.getLast? with
    | some last =>
        if startsWithStr "User:" last then hist.dropLast ++ [last ++ text]
        else hist ++ ["User: " ++ text]
    | none => hist ++ ["User: " ++ text]

/-- C7: consecutive fragments from the same speaker coalesce into a single
line.  Concretely, fragments "Hello" then "world" tagged `ai` accumulate to
the single line "Hello world" in the displayed list and to the single history
line "AI: Hello world"; in general, a nonempty AI fragment arriving while the
last displayed line is an AI line replaces that line with its extension and
leaves the line count unchanged. -/
theorem transcript_coalesce :
    addAiTranscriptLine "world" (addAiTranscriptLine "Hello" [])
      = [⟨Speaker.ai, "Hello world"⟩] ∧
    addAiHistory "world" (addAiHistory "Hello" []) = ["AI: Hello world"] ∧
    ∀ (lines : List TranscriptLine) (last : TranscriptLine) (t : String),
      lines.getLast? = some last → last.speaker = Speaker.ai → trimString t ≠ "" →
      addAiTranscriptLine t lines
        = lines.dropLast ++ [⟨Speaker.ai, last.text ++ " " ++ trimString t⟩] ∧
      (addAiTranscriptLine t lines).length = lines.length := by
  refine ⟨by decide, by decide, ?_⟩
  intro lines last t hlast hsp hne
  have hres : addAiTranscriptLine t lines
      = lines.dropLast ++ [⟨Speaker.ai, last.text ++ " " ++ trimString t⟩] := by
    simp [addAiTranscriptLine, hne, hlast, hsp]
  refine ⟨hres, ?_⟩
  have hne2 : lines ≠ [] := by
    intro h
    rw [h] at hlast
    simp at hlast
  have hlen : 0 < lines.length := List.length_pos.mpr hne2
  rw [hres]
  simp [List.length_dropLast]
  omega

/-- Witness for C7: the general coalescing clause applied to a one-line AI
transcript and the fragment "there". -/
theorem transcript_coalesce_witness :
    ([⟨Speaker.ai, "Hi"⟩] : List TranscriptLine).getLast? = some ⟨Speaker.ai, "Hi"⟩ ∧
    (⟨Speaker.ai, "Hi"⟩ : TranscriptLine).speaker = Speaker.ai ∧
    trimString "there" ≠ "" ∧
    addAiTranscriptLine "there" [⟨Speaker.ai, "Hi"⟩]
      = ([⟨Speaker.ai, "Hi"⟩] : List TranscriptLine).dropLast
        ++ [⟨Speaker.ai, "Hi" ++ " " ++ trimString "there"⟩] :=
  ⟨by decide, by decide, by decide,
   (transcript_coalesce.2.2 [⟨Speaker.ai, "Hi"⟩] ⟨Speaker.ai, "Hi"⟩ "there"
      (by decide) (by decide) (by decide)).1⟩

/-! Silence-escalation state machine.

Embeds the `silenceInterval` 1-second timer (`src/unnamed/part_002` lines
562-581):

  if (!isConnectedRef.current) return;
  const now = Date.now();
  if (isWaitingForResponseRef.current && !isAiSpeakingRef.current && !isProcessingTimeoutRef.current) {
    const timeSinceAiFinished = now - lastAiTurnEndTimeRef.current;
    if (timeSinceAiFinished > 10000) {
      isProcessingTimeoutRef.current = true;
      silenceWarningCountRef.current += 1;
      if (silenceWarningCountRef.current > 2) {
        record a synthetic no-answer line in both transcript structures;
        silenceWarningCountRef.current = 0;
        sendSystemMessage(the stronger move-on alert);
      } else {
        sendSystemMessage(the silence nudge alert);
      }
    }
  }

together with the flag transitions of `onmessage` that feed it (lines
401-425) and the VAD speech branch (lines 351-356).  The two alert texts
passed to `sendSystemMessage` are modelled as the two constructors of
`SystemMsg`; `sendSystemMessage` is modelled as appending to the list of sent
system messages (the session handle being present). -/

/-- The two system messages of the silence protocol: the first-level nudge
alert (candidate is silent) and the stronger move-on alert (candidate is
still silent, treat as a failed answer). -/
inductive SystemMsg where
  | nudge
  | moveOn
deriving DecidableEq, Repr

/-- The synthetic transcript text recorded when the candidate never
answers. -/
def noAnswerText : String := "[No Answer - Time Limit Exceeded]"

/-- The cross-callback refs driving the silence protocol, plus the transcript
structures and sent system messages it writes to. -/
structure SilenceState where
  connected : Bool
  isWaitingForResponse : Bool
  isAiSpeaking : Bool
  isProcessingTimeout : Bool
  lastAiTurnEndTime : ℕ
  silenceWarningCount : ℕ
  transcriptLines : List TranscriptLine
  fullTranscriptHistory : List String
  systemMessages : List SystemMsg
deriving DecidableEq, Repr

/-- The refs right after `onopen`: connected, nobody holds the floor, no
escalation pending, empty transcript. -/
def initSilence : SilenceState :=
  { connected := true, isWaitingForResponse := false, isAiSpeaking := false,
    isProcessingTimeout := false, lastAiTurnEndTime := 0, silenceWarningCount := 0,
    transcriptLines := [], fullTranscriptHistory := [], systemMessages := [] }

/-- Embedding of one `silenceInterval` tick at wall-clock time `now`
(milliseconds). -/
def silenceTick (now : ℕ) (s : SilenceState) : SilenceState :=
  if !s.connected then s
  else if s.isWaitingForResponse && !s.isAiSpeaking && !s.isProcessingTimeout then
    if 10000 < now - s.lastAiTurnEndTime then
      let c := s.silenceWarningCount + 1
      if 2 < c then
        { s with isProcessingTimeout := true,
                 silenceWarningCount := 0,
                 transcriptLines := s.transcriptLines ++ [⟨Speaker.user, noAnswerText⟩],
                 fullTranscriptHistory := s.fullTranscriptHistory ++ ["User: " ++ noAnswerText],
                 systemMessages := s.systemMessages ++ [SystemMsg.moveOn] }
      else
        { s with isProcessingTimeout := true,
                 silenceWarningCount := c,
                 systemMessages := s.systemMessages ++ [SystemMsg.nudge] }
    else s
  else s

/-- Embedding of the `hasContent` branch of `onmessage`: the AI holds the
floor again and any pending escalation is cancelled. -/
def serverContentArrives (s : SilenceState) : SilenceState :=
  { s with isAiSpeaking := true, lastAiTurnEndTime := 0,
           isWaitingForResponse := false, isProcessingTimeout := false }

/-- Embedding of the `isTurnComplete` branch of `onmessage`: the floor passes
to the user and the silence anchor is recorded. -/
def serverTurnComplete (now : ℕ) (s : SilenceState) : SilenceState :=
  { s with isAiSpeaking := false, lastAiTurnEndTime := now, isWaitingForResponse := true }

/-- Embedding of the flag updates of the `isInterrupted` branch of
`onmessage` (its scheduler effect is `interruptPlayback`). -/
def serverInterruptedSignal (s : SilenceState) : SilenceState :=
  { s with isAiSpeaking := false, isWaitingForResponse := false, isProcessingTimeout := false }

/-- Embedding of the VAD speech branch of `onaudioprocess`: detected user
speech clears the waiting flag and resets the escalation counter. -/
def userSpeechDetected (s : SilenceState) : SilenceState :=
  { s with isWaitingForResponse := false, silenceWarningCount := 0 }

/-- C4 counterexample: after an AI turn-complete at time 0 with no speech and
no further server events, two full silence thresholds elapse (1-second ticks
up to 21 seconds), yet exactly one nudge has been sent, no synthetic
no-answer line exists, and the escalation counter is 1, not 0: once the
first nudge fires, `isProcessingTimeout` stays set, so the no-answer branch
(which needs the counter to exceed 2) cannot be reached after only two
thresholds. -/
theorem silence_two_thresholds_counterexample :
    (fun r => (r.systemMessages, r.fullTranscriptHistory, r.silenceWarningCount))
      ([1000, 2000, 3000, 4000, 5000, 6000, 7000, 8000, 9000, 10000, 11000, 12000,
        13000, 14000, 15000, 16000, 17000, 18000, 19000, 20000, 21000].foldl
        (fun s t => silenceTick t s) (serverTurnComplete 0 initSilence))
      = ([SystemMsg.nudge], ([] : List String), 1) := by
  decide

/-- C4 amended: in `WaitingForUser` with no escalation in flight, a tick past
the 10-second silence threshold sends exactly one nudge and increments the
counter while the counter is below 2, and appends exactly one synthetic
no-answer line, resets the counter to zero and sends the stronger move-on
message when the counter has already reached 2 (its third firing, since each
firing sets the in-flight flag, which only AI content, an interruption or
user speech clears); after a firing, further ticks are no-ops. -/
theorem silence_escalation (s : SilenceState) (now now2 : ℕ)
    (hc : s.connected = true) (hw : s.isWaitingForResponse = true)
    (ha : s.isAiSpeaking = false) (hp : s.isProcessingTimeout = false)
    (ht : 10000 < now - s.lastAiTurnEndTime) :
    (s.silenceWarningCount < 2 →
      (silenceTick now s).systemMessages = s.systemMessages ++ [SystemMsg.nudge] ∧
      (silenceTick now s).silenceWarningCount = s.silenceWarningCount + 1 ∧
      (silenceTick now s).fullTranscriptHistory = s.fullTranscriptHistory) ∧
    (2 ≤ s.silenceWarningCount →
      (silenceTick now s).fullTranscriptHistory
        = s.fullTranscriptHistory ++ ["User: " ++ noAnswerText] ∧
      (silenceTick now s).transcriptLines
        = s.transcriptLines ++ [⟨Speaker.user, noAnswerText⟩] ∧
      (silenceTick now s).silenceWarningCount = 0 ∧
      (silenceTick now s).systemMessages = s.systemMessages ++ [SystemMsg.moveOn]) ∧
    (silenceTick now s).isProcessingTimeout = true ∧
    silenceTick now2 (silenceTick now s) = silenceTick now s := by
  refine ⟨?_, ?_, ?_, ?_⟩
  · intro hcnt
    have h2 : ¬ 2 < s.silenceWarningCount + 1 := by omega
    simp [silenceTick, hc, hw, ha, hp, ht, h2]
  · intro hcnt
    have h2 : 2 < s.silenceWarningCount + 1 := by omega
    simp [silenceTick, hc, hw, ha, hp, ht, h2]
  · by_cases h2 : 2 < s.silenceWarningCount + 1 <;>
      simp [silenceTick, hc, hw, ha, hp, ht, h2]
  · by_cases h2 : 2 < s.silenceWarningCount + 1 <;>
      simp [silenceTick, hc, hw, ha, hp, ht, h2]

/-- Witness for the amended C4: the first tick past the threshold after a
turn-complete at time 0 sends exactly one nudge and bumps the counter to
one. -/
theorem silence_escalation_witness :
    ((serverTurnComplete 0 initSilence).connected = true ∧
     (serverTurnComplete 0 initSilence).isWaitingForResponse = true ∧
     (serverTurnComplete 0 initSilence).isAiSpeaking = false ∧
     (serverTurnComplete 0 initSilence).isProcessingTimeout = false ∧
     10000 < 10001 - (serverTurnComplete 0 initSilence).lastAiTurnEndTime ∧
     (serverTurnComplete 0 initSilence).silenceWarningCount < 2) ∧
    (silenceTick 10001 (serverTurnComplete 0 initSilence)).systemMessages
      = (serverTurnComplete 0 initSilence).systemMessages ++ [SystemMsg.nudge] ∧
    (silenceTick 10001 (serverTurnComplete 0 initSilence)).silenceWarningCount
      = (serverTurnComplete 0 initSilence).silenceWarningCount + 1 ∧
    (silenceTick 10001 (serverTurnComplete 0 initSilence)).fullTranscriptHistory
      = (serverTurnComplete 0 initSilence).fullTranscriptHistory :=
  ⟨⟨rfl, rfl, rfl, rfl, by decide, by decide⟩,
   (silence_escalation (serverTurnComplete 0 initSilence) 10001 11000
      rfl rfl rfl rfl (by decide)).1 (by decide)⟩

/-! Capture pipeline.

Embeds the sending logic of `onaudioprocess` (`src/unnamed/part_002` lines
336-339 and 361-372) and `toggleMute` (lines 590-595):

  scriptProcessor.onaudioprocess = (e) => {
    if (!isConnectedRef.current || !isMountedRef.current) return;
    ...VAD (embedded above as vadStep)...
    const downsampledData = downsampleBuffer(inputData, currentSampleRate, 16000);
    if (downsampledData.length > 0) {
      const pcmBlob = createBlob(downsampledData, 16000);
      sessionPromise.then(session => {
        if (isConnectedRef.current && isMountedRef.current)
          session.sendRealtimeInput({ media: pcmBlob });
      });
    }
  };

  const toggleMute = () => {
    if (streamRef.current) {
      streamRef.current.getAudioTracks().forEach(t => t.enabled = !isMuted);
      setIsMuted(!isMuted);
    }
  };

The `isMuted` React state never appears in the send path; `toggleMute` only
writes the audio tracks' `enabled` flag, and writes it to `!isMuted` - the
value `isMuted` is about to take - rather than to its negation.  Muting from
the unmuted state therefore leaves the track enabled, so the session keeps
forwarding live microphone audio while the UI shows muted; conversely,
unmuting disables the track (a disabled track yields all-zero samples, and
the callback still runs and still sends the chunk). -/

/-- The wire sample rate: capture audio is downsampled to 16 kHz before
sending. -/
def wireSampleRate : ℕ := 16000

/-- Modelled from the spec: `downsampleBuffer` lives in `utils/audio.ts`,
which is not among the source files.  The spec says each capture window "is
resampled (linear interpolation or equivalent) to the wire rate (commonly 16
kHz mono)"; this is the index-mapping equivalent: the output has
`floor(n * outRate / inRate)` samples and sample `i` reads the input at index
`floor(i * inRate / outRate)`. -/
def downsampleBuffer (input : List ℚ) (inRate outRate : ℕ) : List ℚ :=
  if inRate = 0 ∨ outRate = 0 then []
  else (List.range (input.length * outRate / inRate)).map
    (fun i => input.getD (i * inRate / outRate) 0)

/-- The cross-callback flags read by the capture path: connection state,
mount state, the `isMuted` React state, and the audio tracks' `enabled`
flag. -/
structure CaptureState where
  isConnected : Bool
  isMounted : Bool
  isMuted : Bool
  trackEnabled : Bool
deriving DecidableEq, Repr

/-- Embedding of `toggleMute`: the tracks' `enabled` flag and the `isMuted`
state are both written to the negation of the old `isMuted` value. -/
def toggleMute (s : CaptureState) : CaptureState :=
  { s with trackEnabled := !s.isMuted, isMuted := !s.isMuted }

/-- A chunk handed to `sendRealtimeInput`: the PCM blob rate and samples. -/
structure SentChunk where
  rate : ℕ
  samples : List ℚ
deriving DecidableEq, Repr

/-- Embedding of one `onaudioprocess` invocation restricted to its sending
effect: `none` when no chunk is sent, `some` with the downsampled 16 kHz
chunk otherwise. -/
def onAudioProcess (s : CaptureState) (inputData : List ℚ) (nativeRate : ℕ) :
    Option SentChunk :=
  if !s.isConnected || !s.isMounted then none
  else
    let downsampledData := downsampleBuffer inputData nativeRate wireSampleRate
    if 0 < downsampledData.length then some ⟨wireSampleRate, downsampledData⟩
    else none

/-- C9 counterexample: starting connected, mounted and unmuted with the track
enabled, one `toggleMute` click sets the local mute flag, yet a capture
callback on a four-sample window at native rate 16 kHz still sends a chunk -
the mute flag does not gate forwarding (and, `toggleMute` writing `enabled`
to the pre-toggle `!isMuted`, the track is even still enabled, so the chunk
carries live audio, not silence). -/
theorem muted_chunk_sent_counterexample :
    (toggleMute
        { isConnected := true, isMounted := true, isMuted := false,
          trackEnabled := true }).isMuted = true ∧
    (toggleMute
        { isConnected := true, isMounted := true, isMuted := false,
          trackEnabled := true }).trackEnabled = true ∧
    (onAudioProcess
        (toggleMute
          { isConnected := true, isMounted := true, isMuted := false,
            trackEnabled := true })
        [1, 1, 1, 1] 16000).isSome = true ∧
    (onAudioProcess
        (toggleMute
          { isConnected := true, isMounted := true, isMuted := false,
            trackEnabled := true })
        [1, 1, 1, 1] 16000).map (fun c => c.rate) = some 16000 := by
  refine ⟨rfl, rfl, rfl, rfl⟩

/-- C9 amended: a capture callback forwards a chunk only while the session is
connected and the component is mounted (and the downsampled window is
nonempty); every forwarded chunk is at the 16 kHz wire rate.  The local mute
flag does not gate forwarding: it only drives the tracks' `enabled` flag
through `toggleMute`, which writes the pre-toggle `!isMuted`, so muting an
unmuted session leaves the track enabled and the session keeps forwarding
live microphone audio (and a further toggle shows unmuted with the track
disabled). -/
theorem capture_gating (s : CaptureState) (inputData : List ℚ) (nativeRate : ℕ) :
    (s.isConnected = false ∨ s.isMounted = false →
      onAudioProcess s inputData nativeRate = none) ∧
    (∀ c, onAudioProcess s inputData nativeRate = some c →
      c.rate = wireSampleRate ∧ s.isConnected = true ∧ s.isMounted = true ∧
      c.samples = downsampleBuffer inputData nativeRate wireSampleRate) ∧
    (s.isMuted = false → s.trackEnabled = true →
      (toggleMute s).isMuted = true ∧ (toggleMute s).trackEnabled = true ∧
      onAudioProcess (toggleMute s) inputData nativeRate
        = onAudioProcess s inputData nativeRate ∧
      (toggleMute (toggleMute s)).isMuted = false ∧
      (toggleMute (toggleMute s)).trackEnabled = false) := by
  refine ⟨?_, ?_, ?_⟩
  · intro h
    rcases h with h | h <;> simp [onAudioProcess, h]
  · intro c hc
    simp [onAudioProcess] at hc
    obtain ⟨⟨hcon, hm⟩, hlen, heq⟩ := hc
    subst heq
    exact ⟨rfl, hcon, hm, rfl⟩
  · intro hmu _
    refine ⟨by simp [toggleMute, hmu], by simp [toggleMute, hmu], ?_, ?_, ?_⟩
    · simp [onAudioProcess, toggleMute]
    · simp [toggleMute, hmu]
    · simp [toggleMute, hmu]

/-- Witness for the amended C9: a disconnected callback sends nothing, and
toggling mute on a live unmuted session leaves the track enabled. -/
theorem capture_gating_witness :
    ((⟨false, true, false, true⟩ : CaptureState).isConnected = false ∨
      (⟨false, true, false, true⟩ : CaptureState).isMounted = false) ∧
    onAudioProcess (⟨false, true, false, true⟩ : CaptureState) [1, 1] 16000 = none ∧
    ((⟨true, true, false, true⟩ : CaptureState).isMuted = false ∧
      (⟨true, true, false, true⟩ : CaptureState).trackEnabled = true ∧
      (toggleMute (⟨true, true, false, true⟩ : CaptureState)).isMuted = true ∧
      (toggleMute (⟨true, true, false, true⟩ : CaptureState)).trackEnabled = true) :=
  ⟨Or.inl rfl,
   (capture_gating (⟨false, true, false, true⟩ : CaptureState) [1, 1] 16000).1 (Or.inl rfl),
   rfl, rfl,
   ((capture_gating (⟨true, true, false, true⟩ : CaptureState) [1, 1] 16000).2.2
      rfl rfl).1,
   ((capture_gating (⟨true, true, false, true⟩ : CaptureState) [1, 1] 16000).2.2
      rfl rfl).2.1⟩

end InterviewEngine
